import Mathlib

/-!
Shallow embedding of `log4mongo/handlers.py` (MrLucio/log4mongo-python):
the `MongoFormatter` record-to-document transformation and the
`AsyncMongoHandler` connection / emit / close life cycle.

Modelling conventions:
* Python dictionaries whose keys are strings become association lists
  `List (String × Value)`; `d[k] = v` becomes `dictInsert`, which replaces
  the first entry with key `k` in place or appends a new entry at the end
  (Python dict keys are unique, so first = only occurrence).
* `dt.datetime.utcnow()` is an explicit `now : Nat` argument.
* The pymongo driver is opaque: outcomes of the liveness probe
  (`connection.is_primary`), of `authenticate`, of the capped-collection
  creation, of `update_one` and of `fsync` are inputs (`ConnectWorld`,
  `EmitWorld`).  A `MongoClient` object is a numeric identity; the
  module-global `_connection` slot and the fresh-client counter form
  `ProcState`.
* Python exceptions become `Except PyError`; a `try/except` block becomes a
  `match` on the `Except` value of the protected body.
-/

inductive PyError where
  | indexError
  | serverSelectionTimeout
  | operationFailure
  | attributeError
  | writeError (msg : String)
deriving DecidableEq, Repr

inductive Value where
  | str (s : String)
  | nat (n : Nat)
  | time (t : Nat)
  | doc (d : List (String × Value))

/-- Python `d[k]` lookup (keys are unique in a Python dict, so the first
entry with the key is the binding). -/
def dictLookup (d : List (String × Value)) (k : String) : Option Value :=
  match d with
  | [] => none
  | (k', v) :: rest => if k' = k then some v else dictLookup rest k

/-- Python `d[k] = v`: replace the first binding of `k` in place, or append
a fresh binding at the end. -/
def dictInsert (d : List (String × Value)) (k : String) (v : Value) :
    List (String × Value) :=
  match d with
  | [] => [(k, v)]
  | (k', v') :: rest =>
      if k' = k then (k, v) :: rest else (k', v') :: dictInsert rest k v

/-- The `for key in contextual_extra: document[key] = record.__dict__[key]`
loop of `MongoFormatter.format`. -/
def addExtras (d : List (String × Value)) (extras : List (String × Value)) :
    List (String × Value) :=
  extras.foldl (fun acc p => dictInsert acc p.1 p.2) d

/-- `MongoFormatter.DEFAULT_PROPERTIES`: the attribute names of a freshly
constructed `LogRecord('', 0, '', 0, '', '', '', '', '')`. -/
def DEFAULT_PROPERTIES : List String :=
  ["name", "msg", "args", "levelname", "levelno", "pathname", "filename",
   "module", "exc_info", "exc_text", "stack_info", "lineno", "funcName",
   "created", "msecs", "relativeCreated", "thread", "threadName",
   "processName", "process"]

/-- One entry of `traceback.extract_tb(record.exc_info[2])`. -/
structure TracebackFrame where
  filename : String
  name : String
  lineno : Nat
  line : String
deriving DecidableEq, Repr

/-- The data `MongoFormatter.format` reads from a present `record.exc_info`
triple: `str(exc_info[1])`, the extracted traceback list, and the string
`Formatter.format_exception(self, exc_info)` produces. -/
structure ExcInfo where
  excMessage : String
  tb : List TracebackFrame
  formattedTrace : String
deriving DecidableEq, Repr

/-- The parts of an aiologger `LogRecord` that `MongoFormatter.format`
reads.  `extraAttrs` are the bindings of `record.__dict__` whose names are
not in `DEFAULT_PROPERTIES` (the `contextual_extra` set difference). -/
structure LogRecord where
  levelname : String
  name : String
  msg : String
  exc_info : Option ExcInfo
  extraAttrs : List (String × Value)

/-- `MongoFormatter.format(record)`.  `now` is the value of
`dt.datetime.utcnow()` at the call.  `tblist[-1]` on an empty list raises
`IndexError`, which the function does not catch. -/
def MongoFormatter.format (record : LogRecord) (now : Nat) :
    Except PyError (List (String × Value)) :=
  let document : List (String × Value) :=
    [("level", Value.str record.levelname),
     ("loggerName", Value.str record.name),
     ("message", Value.str record.msg),
     ("timestamp", Value.time now)]
  match record.exc_info with
  | none => Except.ok (addExtras document record.extraAttrs)
  | some ei =>
      match ei.tb.getLast? with
      | none => Except.error PyError.indexError
      | some last =>
          let document := dictInsert document "exception" (Value.doc
            [("exc_message", Value.str ei.excMessage),
             ("exc_fileName", Value.str last.filename),
             ("exc_method", Value.str last.name),
             ("exc_lineno", Value.nat last.lineno),
             ("exc_line", Value.str last.line),
             ("exc_trace", Value.str ei.formattedTrace)])
          Except.ok (addExtras document record.extraAttrs)

/-- `self.db = self.connection[self.database_name]`: a pymongo database
handle, identified by the client it came from and the database name. -/
structure DBHandle where
  conn : Nat
  dbName : String
deriving DecidableEq, Repr

/-- The handler's collection handle: either the capped collection freshly
created by `Collection(self.db, name, capped=True, max=..., size=...)`, or
`self.db[name]` (open by name). -/
inductive CollHandle where
  | createdCapped (db : DBHandle) (collName : String) (max : Nat) (size : Nat)
  | byName (db : DBHandle) (collName : String)
deriving DecidableEq, Repr

/-- The fields of `AsyncMongoHandler` that `_connect`, `emit` and `close`
read or write. -/
structure Handler where
  fail_silently : Bool
  reuse : Bool
  capped : Bool
  connection : Option Nat
  db : Option DBHandle
  collection : Option CollHandle
  authenticated : Bool
  mongo_job_id : Option Value

/-- Constructor arguments of `AsyncMongoHandler.__init__` that the modelled
behaviour depends on.  `database_name` is a string (pymongo rejects the
default `None` before any behaviour of interest happens). -/
structure Params where
  uri : String
  collection_name : String
  username : Option String
  password : Option String
  database_name : String
  authentication_db : String
  fail_silently : Bool
  capped : Bool
  capped_max : Nat
  capped_size : Nat
  reuse : Bool
deriving DecidableEq, Repr

/-- Process-wide state: the module-global `_connection` slot, plus a counter
handing out identities for fresh `MongoClient(self.URI)` objects. -/
structure ProcState where
  globalConnection : Option Nat
  nextConn : Nat
deriving DecidableEq, Repr

/-- Outcomes of the driver calls `_connect` makes: does
`self.connection.is_primary` succeed on the fresh client, what does
`auth_db.authenticate` return, and does the capped-collection creation
raise `OperationFailure` (collection already exists). -/
structure ConnectWorld where
  probeOk : Bool
  authResult : Bool
  cappedCreateFails : Bool
deriving DecidableEq, Repr

/-- The tail of `_connect` after `self.connection` is settled on client
`c`: resolve `self.db`, authenticate when both credentials are given, and
resolve the collection (catching `OperationFailure` of the capped
creation by falling back to `self.db[self.collection_name]`). -/
def finishConnect (p : Params) (w : ConnectWorld) (c : Nat) : Handler :=
  let db : DBHandle := ⟨c, p.database_name⟩
  { fail_silently := p.fail_silently
    reuse := p.reuse
    capped := p.capped
    connection := some c
    db := some db
    collection := some
      (if p.capped then
        (if w.cappedCreateFails then CollHandle.byName db p.collection_name
         else CollHandle.createdCapped db p.collection_name p.capped_max
                p.capped_size)
       else CollHandle.byName db p.collection_name)
    authenticated :=
      if p.username.isSome && p.password.isSome then w.authResult else false
    mongo_job_id := none }

/-- The `else` branch of `_connect`: create `MongoClient(self.URI)` (a
fresh client with identity `st.nextConn`), probe `is_primary`; on
`ServerSelectionTimeoutError` return early (handler left with
`db`/`collection` = `None`) when `fail_silently`, else re-raise; on success
`_connection = self.connection` is executed unconditionally, then the tail
of `_connect` runs. -/
def freshConnect (st : ProcState) (p : Params) (w : ConnectWorld) :
    Except PyError (Handler × ProcState) :=
  if w.probeOk then
    Except.ok (finishConnect p w st.nextConn, ⟨some st.nextConn, st.nextConn + 1⟩)
  else if p.fail_silently then
    Except.ok
      ({ fail_silently := p.fail_silently, reuse := p.reuse,
         capped := p.capped, connection := some st.nextConn, db := none,
         collection := none, authenticated := false, mongo_job_id := none },
       ⟨st.globalConnection, st.nextConn + 1⟩)
  else
    Except.error PyError.serverSelectionTimeout

/-- `AsyncMongoHandler.__init__` followed by `_connect`.  An uncaught
Python exception is `Except.error`.  `if self.reuse and _connection:`
adopts the global client without probing; every other case runs
`freshConnect`. -/
def mkHandler (st : ProcState) (p : Params) (w : ConnectWorld) :
    Except PyError (Handler × ProcState) :=
  match p.reuse, st.globalConnection with
  | true, some c => Except.ok (finishConnect p w c, st)
  | true, none => freshConnect st p w
  | false, _ => freshConnect st p w

/-- `set_mongo_job_id`. -/
def Handler.set_mongo_job_id (h : Handler) (j : Value) : Handler :=
  { h with mongo_job_id := some j }

/-- Outcomes of the driver calls `emit` makes: `update_one` and the
`fsync` issued by `flush` each either succeed or raise. -/
structure EmitWorld where
  updateError : Option PyError
  flushError : Option PyError
deriving DecidableEq, Repr

/-- What an `emit` call did, observably. -/
inductive EmitOutcome where
  | noop
  | wrote (jobId : Option Value) (doc : List (String × Value))
  | caughtSilenced (e : PyError)
  | caughtLogged (e : PyError)

/-- The body of the `try:` block in `emit`: format the record (the
formatter call is an argument of `update_one`, hence inside the `try`),
run `update_one`, then `await self.flush()` (`fsync`). -/
def emitTryBody (h : Handler) (record : LogRecord) (now : Nat)
    (w : EmitWorld) : Except PyError EmitOutcome := do
  let doc ← MongoFormatter.format record now
  match w.updateError with
  | some e => Except.error e
  | none =>
      match w.flushError with
      | some e => Except.error e
      | none => Except.ok (EmitOutcome.wrote h.mongo_job_id doc)

/-- `AsyncMongoHandler.emit(record)`: no-op unless `self.collection is not
None`; the `try` body's exception is caught, and `logging.exception(e)` is
called only when `not self.fail_silently`. -/
def Handler.emit (h : Handler) (record : LogRecord) (now : Nat)
    (w : EmitWorld) : Except PyError EmitOutcome :=
  match h.collection with
  | none => Except.ok EmitOutcome.noop
  | some _ =>
      match emitTryBody h record now w with
      | Except.ok out => Except.ok out
      | Except.error e =>
          Except.ok (if h.fail_silently then EmitOutcome.caughtSilenced e
                     else EmitOutcome.caughtLogged e)

/-- Driver calls `close` can make. -/
inductive CloseAction where
  | logout (db : DBHandle)
  | closeConn (c : Nat)
deriving DecidableEq, Repr

/-- `AsyncMongoHandler.close()`: `if self.authenticated: self.db.logout()`
(an `AttributeError` if `db` were `None`), then
`if self.connection is not None: self.connection.close()`.  The handler's
fields are not mutated; the result lists the driver calls issued. -/
def Handler.close (h : Handler) : Except PyError (List CloseAction) :=
  match h.authenticated, h.db with
  | true, none => Except.error PyError.attributeError
  | true, some d =>
      Except.ok ([CloseAction.logout d] ++
        (match h.connection with
         | some c => [CloseAction.closeConn c]
         | none => []))
  | false, _ =>
      Except.ok
        (match h.connection with
         | some c => [CloseAction.closeConn c]
         | none => [])

/-- Driver-visible session state, for reasoning about what repeated
`close` calls do: `logout` and `close` are the idempotent driver
operations of the narrow capability set. -/
structure DriverState where
  loggedIn : Bool
  connOpen : Bool
deriving DecidableEq, Repr

def applyAction (s : DriverState) (a : CloseAction) : DriverState :=
  match a with
  | CloseAction.logout _ => { s with loggedIn := false }
  | CloseAction.closeConn _ => { s with connOpen := false }

def applyActions (s : DriverState) (acts : List CloseAction) : DriverState :=
  acts.foldl applyAction s

/-- `true` iff the modelled Python call returned normally (no uncaught
exception). -/
def exceptOk {ε α : Type} : Except ε α → Bool
  | Except.ok _ => true
  | Except.error _ => false

/-- Whether an emit outcome includes a `logging.exception(e)` diagnostic
call. -/
def EmitOutcome.loggedDiagnostic : EmitOutcome → Bool
  | EmitOutcome.caughtLogged _ => true
  | _ => false

/-- Whether an emit outcome is a failure that was caught at the emit
boundary. -/
def EmitOutcome.caughtFailure : EmitOutcome → Bool
  | EmitOutcome.caughtSilenced _ => true
  | EmitOutcome.caughtLogged _ => true
  | _ => false

theorem addExtras_nil (d : List (String × Value)) : addExtras d [] = d := rfl

theorem addExtras_cons (d : List (String × Value)) (p : String × Value)
    (rest : List (String × Value)) :
    addExtras d (p :: rest) = addExtras (dictInsert d p.1 p.2) rest := rfl

theorem dictLookup_dictInsert_self (d : List (String × Value)) (k : String)
    (v : Value) : dictLookup (dictInsert d k v) k = some v := by
  induction d with
  | nil => simp [dictInsert, dictLookup]
  | cons p rest ih =>
      obtain ⟨k', v'⟩ := p
      by_cases hk : k' = k
      · simp [dictInsert, dictLookup, hk]
      · simp [dictInsert, dictLookup, hk, ih]

theorem dictLookup_dictInsert_ne (d : List (String × Value)) (k k' : String)
    (v : Value) (hne : k ≠ k') :
    dictLookup (dictInsert d k' v) k = dictLookup d k := by
  induction d with
  | nil => simp [dictInsert, dictLookup, Ne.symm hne]
  | cons p rest ih =>
      obtain ⟨a, b⟩ := p
      by_cases ha : a = k'
      · subst ha
        simp [dictInsert, dictLookup, Ne.symm hne]
      · simp [dictInsert, dictLookup, ha, ih]

theorem addExtras_lookup_not_mem (extras : List (String × Value))
    (d : List (String × Value)) (k : String)
    (hk : k ∉ extras.map Prod.fst) :
    dictLookup (addExtras d extras) k = dictLookup d k := by
  induction extras generalizing d with
  | nil => rfl
  | cons p rest ih =>
      simp only [List.map_cons, List.mem_cons] at hk
      push_neg at hk
      rw [addExtras_cons, ih _ hk.2, dictLookup_dictInsert_ne _ _ _ _ hk.1]

theorem addExtras_lookup_mem (extras : List (String × Value))
    (d : List (String × Value)) (k : String) (v : Value)
    (hnd : (extras.map Prod.fst).Nodup) (hmem : (k, v) ∈ extras) :
    dictLookup (addExtras d extras) k = some v := by
  induction extras generalizing d with
  | nil => cases hmem
  | cons p rest ih =>
      rw [addExtras_cons]
      rw [List.map_cons, List.nodup_cons] at hnd
      rcases List.mem_cons.mp hmem with heq | hmem'
      · subst heq
        rw [addExtras_lookup_not_mem rest _ k hnd.1,
          dictLookup_dictInsert_self]
      · exact ih _ hnd.2 hmem'

/-- C1: for every handler state, record, and outcome of the driver calls,
`emit(record)` returns normally: any failure raised during formatting, the
`update_one` write, or the `flush` durability sync is caught inside `emit`
and never propagates to the caller. -/
theorem emit_never_propagates (h : Handler) (record : LogRecord) (now : Nat)
    (w : EmitWorld) : exceptOk (Handler.emit h record now w) = true := by
  unfold Handler.emit
  cases h.collection with
  | none => rfl
  | some c =>
      cases emitTryBody h record now w with
      | ok out => rfl
      | error e => rfl

/-- C2 counterexample: on a record whose exception info is present but
whose traceback has zero frames, `MongoFormatter.format` does not succeed:
`tblist[-1]` raises an uncaught `IndexError`, so no document (and no
exception message) is produced, contrary to the claim. -/
theorem format_zero_frames_cex :
    MongoFormatter.format
      { levelname := "ERROR", name := "lg", msg := "m",
        exc_info := some { excMessage := "boom", tb := [],
                           formattedTrace := "t" },
        extraAttrs := [] } 0 = Except.error PyError.indexError := rfl

/-- C2 amended: for every record whose exception info is present but whose
traceback has zero frames, `MongoFormatter.format` raises an `IndexError`
(`tblist[-1]` on the empty extracted-traceback list); formatting does not
succeed and no exception sub-document is produced. -/
theorem format_zero_frames_raises (r : LogRecord) (now : Nat) (ei : ExcInfo)
    (hei : r.exc_info = some ei) (htb : ei.tb = []) :
    MongoFormatter.format r now = Except.error PyError.indexError := by
  simp [MongoFormatter.format, hei, htb]

/-- C2 amended, witness: a concrete zero-frame record at which the
amended theorem applies. -/
theorem format_zero_frames_raises_witness :
    MongoFormatter.format ⟨"ERROR", "lg", "m", some ⟨"boom", [], "t"⟩, []⟩ 3
      = Except.error PyError.indexError :=
  format_zero_frames_raises _ 3 ⟨"boom", [], "t"⟩ rfl rfl

/-- C4 counterexample: a handler with `fail_silently = True` and a failing
`update_one` catches the failure but issues no `logging.exception`
diagnostic (the code reads `if not self.fail_silently:`), contrary to the
claim that a caught failure is logged when fail-silently is on. -/
theorem emit_failsilent_no_diagnostic_cex :
    (Handler.emit
      { fail_silently := true, reuse := true, capped := false,
        connection := some 0, db := some ⟨0, "db"⟩,
        collection := some (CollHandle.byName ⟨0, "db"⟩ "logs"),
        authenticated := false, mongo_job_id := none }
      ⟨"INFO", "lg", "m", none, []⟩ 0
      ⟨some (PyError.writeError "boom"), none⟩).map
        (fun o => (o.caughtFailure, o.loggedDiagnostic)) =
      Except.ok (true, false) := rfl

/-- C4 amended: when a failure is caught at the emit boundary, the
`logging.exception` diagnostic is issued exactly when fail-silently is
off; when fail-silently is on the caught failure is suppressed without a
diagnostic.  In both cases emit returns normally. -/
theorem emit_diagnostic_iff_not_failsilent (h : Handler) (record : LogRecord)
    (now : Nat) (w : EmitWorld) (e : PyError)
    (hcoll : h.collection.isSome = true)
    (hfail : emitTryBody h record now w = Except.error e) :
    Handler.emit h record now w =
      Except.ok (if h.fail_silently then EmitOutcome.caughtSilenced e
                 else EmitOutcome.caughtLogged e) := by
  unfold Handler.emit
  cases hc : h.collection with
  | none => rw [hc] at hcoll; cases hcoll
  | some c => rw [hfail]

/-- C4 amended, witness: a handler with `fail_silently = False` and a
failing write gets the `logging.exception` diagnostic. -/
theorem emit_diagnostic_iff_not_failsilent_witness :
    Handler.emit
      { fail_silently := false, reuse := true, capped := false,
        connection := some 0, db := some ⟨0, "db"⟩,
        collection := some (CollHandle.byName ⟨0, "db"⟩ "logs"),
        authenticated := false, mongo_job_id := none }
      ⟨"INFO", "lg", "m", none, []⟩ 0
      ⟨some (PyError.writeError "boom"), none⟩ =
      Except.ok (EmitOutcome.caughtLogged (PyError.writeError "boom")) :=
  emit_diagnostic_iff_not_failsilent _ _ _ _ _ rfl rfl

/-- C7: for every record whose exception info is present and whose
traceback has at least one frame (and which carries no extra attribute
named "exception"), the exception sub-document's file name, method name,
line number and source line are those of the last (deepest) frame of the
extracted traceback. -/
theorem exception_fields_from_last_frame (r : LogRecord) (now : Nat)
    (ei : ExcInfo) (fr : TracebackFrame) (hei : r.exc_info = some ei)
    (hlast : ei.tb.getLast? = some fr)
    (hx : "exception" ∉ r.extraAttrs.map Prod.fst) :
    (MongoFormatter.format r now).map (fun d => dictLookup d "exception") =
      Except.ok (some (Value.doc
        [("exc_message", Value.str ei.excMessage),
         ("exc_fileName", Value.str fr.filename),
         ("exc_method", Value.str fr.name),
         ("exc_lineno", Value.nat fr.lineno),
         ("exc_line", Value.str fr.line),
         ("exc_trace", Value.str ei.formattedTrace)])) := by
  simp only [MongoFormatter.format, hei, hlast, Except.map]
  rw [addExtras_lookup_not_mem _ _ _ hx, dictLookup_dictInsert_self]

/-- C7 witness: a record with a two-frame traceback; the reported fields
are those of the second (deepest) frame, not the first. -/
theorem exception_fields_from_last_frame_witness :
    (MongoFormatter.format
      ⟨"ERROR", "lg", "m",
       some ⟨"boom", [⟨"a.py", "outer", 1, "call inner"⟩,
                      ⟨"b.py", "inner", 9, "raise ValueError"⟩], "tr"⟩,
       []⟩ 5).map (fun d => dictLookup d "exception") =
      Except.ok (some (Value.doc
        [("exc_message", Value.str "boom"),
         ("exc_fileName", Value.str "b.py"),
         ("exc_method", Value.str "inner"),
         ("exc_lineno", Value.nat 9),
         ("exc_line", Value.str "raise ValueError"),
         ("exc_trace", Value.str "tr")])) :=
  exception_fields_from_last_frame _ 5
    ⟨"boom", [⟨"a.py", "outer", 1, "call inner"⟩,
              ⟨"b.py", "inner", 9, "raise ValueError"⟩], "tr"⟩
    ⟨"b.py", "inner", 9, "raise ValueError"⟩ rfl rfl (by simp)

/-- C10: every record attribute outside the `DEFAULT_PROPERTIES` baseline
is copied into the document after the standard and exception fields, so
when its name collides with a reserved document field the record's value
overwrites the reserved one (last write wins). -/
theorem extra_attr_overwrites_reserved (r : LogRecord) (now : Nat)
    (k : String) (v : Value)
    (_hbase : ∀ k' ∈ r.extraAttrs.map Prod.fst, k' ∉ DEFAULT_PROPERTIES)
    (hnd : (r.extraAttrs.map Prod.fst).Nodup)
    (hmem : (k, v) ∈ r.extraAttrs)
    (hok : exceptOk (MongoFormatter.format r now) = true) :
    (MongoFormatter.format r now).map (fun d => dictLookup d k) =
      Except.ok (some v) := by
  cases hei : r.exc_info with
  | none =>
      simp only [MongoFormatter.format, hei, Except.map]
      rw [addExtras_lookup_mem _ _ _ _ hnd hmem]
  | some ei =>
      cases hlast : ei.tb.getLast? with
      | none =>
          rw [format_zero_frames_raises r now ei hei
            (List.getLast?_eq_none_iff.mp hlast)] at hok
          cases hok
      | some fr =>
          simp only [MongoFormatter.format, hei, hlast, Except.map]
          rw [addExtras_lookup_mem _ _ _ _ hnd hmem]

/-- C10 witness: an extra attribute named "level" (not a baseline record
attribute) overwrites the reserved `level` field of the document. -/
theorem extra_attr_overwrites_reserved_witness :
    (MongoFormatter.format
      ⟨"INFO", "lg", "m", none, [("level", Value.str "OVERRIDDEN")]⟩ 0).map
        (fun d => dictLookup d "level") =
      Except.ok (some (Value.str "OVERRIDDEN")) :=
  extra_attr_overwrites_reserved _ 0 "level" (Value.str "OVERRIDDEN")
    (by decide) (by simp) (by simp) rfl

/-- C3: when a fresh client's liveness probe fails at construction time,
the `ServerSelectionTimeoutError` propagates out of the constructor iff
fail-silently is off; with fail-silently on, construction returns normally
with `collection = None`, so every subsequent `emit` is a no-op. -/
theorem construct_probe_failure (st : ProcState) (p : Params)
    (w : ConnectWorld)
    (hnew : ¬(p.reuse = true ∧ st.globalConnection.isSome = true))
    (hprobe : w.probeOk = false) :
    (p.fail_silently = false →
        mkHandler st p w = Except.error PyError.serverSelectionTimeout) ∧
    (p.fail_silently = true →
        ∃ h st2, mkHandler st p w = Except.ok (h, st2) ∧
          h.collection = none ∧
          ∀ r now ew, Handler.emit h r now ew = Except.ok EmitOutcome.noop) := by
  have hfresh : mkHandler st p w = freshConnect st p w := by
    unfold mkHandler
    cases hr : p.reuse with
    | false => rfl
    | true =>
        cases hg : st.globalConnection with
        | none => rfl
        | some c => exact absurd ⟨hr, by rw [hg]; rfl⟩ hnew
  constructor
  · intro hfs
    rw [hfresh]
    unfold freshConnect
    rw [hprobe, hfs]
    rfl
  · intro hfs
    refine ⟨{ fail_silently := p.fail_silently, reuse := p.reuse,
              capped := p.capped, connection := some st.nextConn,
              db := none, collection := none, authenticated := false,
              mongo_job_id := none },
            ⟨st.globalConnection, st.nextConn + 1⟩, ?_, rfl, ?_⟩
    · rw [hfresh]
      unfold freshConnect
      rw [hprobe, hfs]
      simp
    · intro r now ew
      rfl

/-- C3 witness: probe failure with `fail_silently = False` (and `reuse =
True` but no process-wide connection yet) is fatal at construction. -/
theorem construct_probe_failure_witness :
    mkHandler ⟨none, 0⟩
      ⟨"mongodb://h", "logs", none, none, "db", "admin", false, false,
       1000, 1000000, true⟩
      ⟨false, true, false⟩ = Except.error PyError.serverSelectionTimeout :=
  (construct_probe_failure ⟨none, 0⟩ _ _ (by decide) rfl).1 rfl

/-- C5: once a process-wide connection exists, any two handlers
constructed with `reuse = True` both adopt exactly that client, whatever
their own parameters are (first-writer-wins for the shared connection). -/
theorem reuse_adopts_shared_connection (st : ProcState) (p1 p2 : Params)
    (w1 w2 : ConnectWorld) (c : Nat) (h1 h2 : Handler) (st1 st2 : ProcState)
    (hg : st.globalConnection = some c)
    (hr1 : p1.reuse = true) (hr2 : p2.reuse = true)
    (hm1 : mkHandler st p1 w1 = Except.ok (h1, st1))
    (hm2 : mkHandler st1 p2 w2 = Except.ok (h2, st2)) :
    h1.connection = some c ∧ h2.connection = some c := by
  have key : ∀ (p : Params) (w : ConnectWorld) (s : ProcState) (h : Handler)
      (s2 : ProcState), p.reuse = true → s.globalConnection = some c →
      mkHandler s p w = Except.ok (h, s2) →
      h.connection = some c ∧ s2 = s := by
    intro p w s h s2 hr hgc hm
    unfold mkHandler at hm
    rw [hr, hgc] at hm
    injection hm with hpair
    injection hpair with hh hs
    exact ⟨hh ▸ rfl, hs.symm⟩
  obtain ⟨hc1, hst1⟩ := key p1 w1 st h1 st1 hr1 hg hm1
  obtain ⟨hc2, _⟩ := key p2 w2 st1 h2 st2 hr2 (hst1 ▸ hg) hm2
  exact ⟨hc1, hc2⟩

/-- C5 witness: with the shared slot holding client 7, two handlers built
with `reuse = True` (and different parameters) both hold client 7. -/
theorem reuse_adopts_shared_connection_witness :
    Handler.connection (finishConnect
      ⟨"mongodb://a", "logs", none, none, "db1", "admin", false, false,
       1000, 1000000, true⟩ ⟨true, false, false⟩ 7) = some 7 ∧
    Handler.connection (finishConnect
      ⟨"mongodb://b", "other", none, none, "db2", "admin", true, false,
       5, 99, true⟩ ⟨false, false, false⟩ 7) = some 7 :=
  reuse_adopts_shared_connection ⟨some 7, 8⟩
    ⟨"mongodb://a", "logs", none, none, "db1", "admin", false, false,
     1000, 1000000, true⟩
    ⟨"mongodb://b", "other", none, none, "db2", "admin", true, false,
     5, 99, true⟩
    ⟨true, false, false⟩ ⟨false, false, false⟩ 7 _ _ _ _
    rfl rfl rfl rfl rfl

theorem freshConnect_slot (st : ProcState) (p : Params) (w : ConnectWorld)
    (h : Handler) (st2 : ProcState)
    (hm : freshConnect st p w = Except.ok (h, st2)) :
    (w.probeOk = true → st2.globalConnection = some st.nextConn) ∧
    (w.probeOk = false → st2.globalConnection = st.globalConnection) := by
  unfold freshConnect at hm
  cases hpr : w.probeOk with
  | true =>
      rw [hpr] at hm
      simp only [if_true] at hm
      injection hm with hpair
      injection hpair with hh hs
      refine ⟨fun _ => ?_, fun hfalse => ?_⟩
      · rw [← hs]
      · simp at hfalse
  | false =>
      rw [hpr] at hm
      simp only [Bool.false_eq_true, if_false] at hm
      cases hfs : p.fail_silently with
      | true =>
          rw [hfs] at hm
          simp only [if_true] at hm
          injection hm with hpair
          injection hpair with hh hs
          refine ⟨fun htrue => ?_, fun _ => ?_⟩
          · simp at htrue
          · rw [← hs]
      | false =>
          rw [hfs] at hm
          simp at hm

/-- C6 counterexample: with the process-wide slot holding client 0, a
handler constructed with `reuse = False` whose probe succeeds overwrites
the slot with the new client 1 (`_connection = self.connection` runs
regardless of `reuse`), so the slot does not stay unchanged as claimed. -/
theorem reuse_false_overwrites_slot_cex :
    (mkHandler ⟨some 0, 1⟩
      ⟨"mongodb://h", "logs", none, none, "db", "admin", false, false,
       1000, 1000000, false⟩
      ⟨true, false, false⟩).map (fun hs => hs.2.globalConnection) =
      Except.ok (some 1) ∧ some 1 ≠ (some 0 : Option Nat) := by
  refine ⟨rfl, ?_⟩
  simp

/-- C6 amended: the process-wide slot is written by a (normally returning)
construction exactly when a new client is created and its liveness probe
succeeds, regardless of the reuse flag: the adopt path and the fail-silent
probe-failure path leave it unchanged, and a successful fresh connection
overwrites it even when `reuse = False`. -/
theorem slot_written_iff_fresh_probe_ok (st : ProcState) (p : Params)
    (w : ConnectWorld) (h : Handler) (st2 : ProcState)
    (hm : mkHandler st p w = Except.ok (h, st2)) :
    (p.reuse = true ∧ st.globalConnection.isSome = true →
        st2.globalConnection = st.globalConnection) ∧
    (¬(p.reuse = true ∧ st.globalConnection.isSome = true) →
        (w.probeOk = true → st2.globalConnection = some st.nextConn) ∧
        (w.probeOk = false → st2.globalConnection = st.globalConnection)) := by
  cases hr : p.reuse with
  | true =>
      cases hg : st.globalConnection with
      | some c =>
          unfold mkHandler at hm
          rw [hr, hg] at hm
          injection hm with hpair
          injection hpair with hh hs
          refine ⟨fun _ => by rw [← hs]; exact hg, fun hcontra => ?_⟩
          exact absurd ⟨rfl, rfl⟩ hcontra
      | none =>
          unfold mkHandler at hm
          rw [hr, hg] at hm
          refine ⟨fun hcontra => ?_, fun _ => ?_⟩
          · simp at hcontra
          · rw [← hg]
            exact freshConnect_slot st p w h st2 hm
  | false =>
      unfold mkHandler at hm
      rw [hr] at hm
      refine ⟨fun hcontra => ?_, fun _ => freshConnect_slot st p w h st2 hm⟩
      simp at hcontra

/-- C6 amended, witness: slot holds client 0; a `reuse = False`
construction whose probe succeeds leaves the slot holding the fresh
client 1. -/
theorem slot_written_iff_fresh_probe_ok_witness :
    (⟨some 1, 2⟩ : ProcState).globalConnection = some 1 :=
  ((slot_written_iff_fresh_probe_ok ⟨some 0, 1⟩
    ⟨"mongodb://h", "logs", none, none, "db", "admin", false, false,
     1000, 1000000, false⟩
    ⟨true, false, false⟩ _ _ rfl).2 (by decide)).1 rfl

/-- C8: when capped mode is requested and the capped-collection creation
raises `OperationFailure` (collection already exists), construction still
returns normally on every path that reaches collection resolution, and the
handler's collection handle is the existing collection opened by name
(`self.db[self.collection_name]`). -/
theorem capped_creation_fallback (st : ProcState) (p : Params)
    (w : ConnectWorld) (hcap : p.capped = true)
    (hexists : w.cappedCreateFails = true)
    (hreach : (p.reuse = true ∧ st.globalConnection.isSome = true) ∨
      w.probeOk = true) :
    ∃ h st2 c, mkHandler st p w = Except.ok (h, st2) ∧
      h.connection = some c ∧
      h.collection =
        some (CollHandle.byName ⟨c, p.database_name⟩ p.collection_name) := by
  have hfin : ∀ c : Nat, (finishConnect p w c).collection =
      some (CollHandle.byName ⟨c, p.database_name⟩ p.collection_name) := by
    intro c
    simp [finishConnect, hcap, hexists]
  have hfreshok : freshConnect st p w = Except.ok
      (finishConnect p w st.nextConn,
       ⟨some st.nextConn, st.nextConn + 1⟩) ∨
      (p.reuse = true ∧ st.globalConnection.isSome = true) := by
    rcases hreach with hadopt | hpr
    · exact Or.inr hadopt
    · refine Or.inl ?_
      unfold freshConnect
      rw [hpr]
      rfl
  cases hr : p.reuse with
  | true =>
      cases hg : st.globalConnection with
      | some c =>
          refine ⟨finishConnect p w c, st, c, ?_, rfl, hfin c⟩
          unfold mkHandler
          rw [hr, hg]
      | none =>
          rcases hfreshok with hok | ⟨_, hsome⟩
          · refine ⟨finishConnect p w st.nextConn,
              ⟨some st.nextConn, st.nextConn + 1⟩, st.nextConn, ?_, rfl,
              hfin st.nextConn⟩
            rw [← hok]
            unfold mkHandler
            rw [hr, hg]
          · rw [hg] at hsome
            simp at hsome
  | false =>
      rcases hfreshok with hok | ⟨hrt, _⟩
      · refine ⟨finishConnect p w st.nextConn,
          ⟨some st.nextConn, st.nextConn + 1⟩, st.nextConn, ?_, rfl,
          hfin st.nextConn⟩
        rw [← hok]
        unfold mkHandler
        rw [hr]
      · rw [hr] at hrt
        cases hrt

/-- C8 witness: a fresh capped handler against a pre-existing capped
collection named "logs": construction succeeds and the handle is the
existing collection opened by name. -/
theorem capped_creation_fallback_witness :
    ∃ h st2 c, mkHandler ⟨none, 0⟩
      ⟨"mongodb://h", "logs", none, none, "db", "admin", false, true,
       1000, 1000000, true⟩
      ⟨true, false, true⟩ = Except.ok (h, st2) ∧
      h.connection = some c ∧
      h.collection = some (CollHandle.byName ⟨c, "db"⟩ "logs") :=
  capped_creation_fallback ⟨none, 0⟩ _ _ rfl rfl (Or.inr rfl)

/-- C9: `close()` is best-effort and idempotent: it returns normally, its
driver effects applied twice equal them applied once (so a second call in
succession changes nothing), a handler that never opened a connection gets
no driver calls at all, and `logout` is attempted only when authentication
previously succeeded. -/
theorem close_idempotent_best_effort (h : Handler) (s : DriverState)
    (hwf : h.authenticated = true → h.db.isSome = true) :
    ∃ acts, Handler.close h = Except.ok acts ∧
      applyActions (applyActions s acts) acts = applyActions s acts ∧
      (∀ d, CloseAction.logout d ∈ acts → h.authenticated = true) ∧
      (h.authenticated = false → h.connection = none → acts = []) := by
  cases ha : h.authenticated with
  | false =>
      cases hc : h.connection with
      | none =>
          refine ⟨[], ?_, rfl, ?_, fun _ _ => rfl⟩
          · simp [Handler.close, ha, hc]
          · intro d hd
            cases hd
      | some c =>
          refine ⟨[CloseAction.closeConn c], ?_, rfl, ?_, ?_⟩
          · simp [Handler.close, ha, hc]
          · intro d hd
            simp at hd
          · intro _ hnone
            simp at hnone
  | true =>
      have hdb := hwf ha
      cases hd : h.db with
      | none =>
          rw [hd] at hdb
          simp at hdb
      | some d =>
          cases hc : h.connection with
          | none =>
              refine ⟨[CloseAction.logout d], ?_, rfl, fun _ _ => rfl, ?_⟩
              · simp [Handler.close, ha, hd, hc]
              · intro hfalse
                simp at hfalse
          | some c =>
              refine ⟨[CloseAction.logout d, CloseAction.closeConn c], ?_,
                rfl, fun _ _ => rfl, ?_⟩
              · simp [Handler.close, ha, hd, hc]
              · intro hfalse
                simp at hfalse

/-- C9 witness: closing a handler that never opened a connection (not
authenticated, no client) is a no-op with no error, whatever the driver
session state is. -/
theorem close_idempotent_best_effort_witness :
    ∃ acts, Handler.close
        ⟨false, true, false, none, none, none, false, none⟩ =
        Except.ok acts ∧
      applyActions (applyActions ⟨true, true⟩ acts) acts =
        applyActions ⟨true, true⟩ acts ∧
      (∀ d, CloseAction.logout d ∈ acts → false = true) ∧
      (false = false → none = (none : Option Nat) → acts = []) :=
  close_idempotent_best_effort
    ⟨false, true, false, none, none, none, false, none⟩ ⟨true, true⟩
    (by decide)
